import Mathlib

/-!
# Miniflux HTTP server bootstrap (`http/server/httpd.go`)

A shallow embedding of the listener selection (`StartWebServer`), the TLS
policy (`tlsConfig`, `startAutoCertTLSServer`) and the admission check of the
metrics endpoint (`isAllowedToAccessMetricsEndpoint`).

Conventions of the embedding:

* `config.Opts` is an explicit record `Options`, passed to every function that
  reads it; a function that assigns to it returns the updated record.
* `*http.Server` is a record `Server`; a function that mutates the pointee
  returns the updated record.
* `logger.Fatal` terminates the process: a function that may call it returns an
  `Outcome`, either `ret v` (the Go function returned `v`) or `fatal`.
* Log output is returned as a list of `LogLine`s next to the outcome.
* Functions of the Go standard library and of packages outside the files at
  hand (`net`, `net/http`, `http/request`) are fields of a record `Lib`;
  theorems quantify over it.  `goLib` is a concrete instance covering IPv4
  text forms, used to evaluate the definitions on concrete requests.
-/

set_option autoImplicit false

namespace Miniflux

/-! ## Configuration, requests, log -/

/-- The part of `config.Opts` read by `httpd.go`.  The accessor methods
`CertFile()`, `CertKeyFile()`, ... are the fields; `HTTPS` is the exported
mutable field assigned by `StartWebServer`. -/
structure Options where
  HTTPS : Bool := false
  CertFile : String := ""
  CertKeyFile : String := ""
  CertDomain : String := ""
  ListenAddr : String := ""
  HTTPServerTimeout : Nat := 0
  MetricsUsername : String := ""
  MetricsPassword : String := ""
  MetricsAllowedNetworks : List String := []
  deriving DecidableEq, Repr

/-- The fields of `*http.Request` the admission check can observe: the
transport-layer peer address and the header map (canonical key, values). -/
structure Request where
  RemoteAddr : String
  Header : List (String × List String) := []
  deriving DecidableEq, Repr

/-- Severity of a `logger` call. -/
inductive Level where
  | Info
  | Error
  | Fatal
  deriving DecidableEq, Repr

/-- One formatted `logger` line. -/
structure LogLine where
  level : Level
  text : String
  deriving DecidableEq, Repr

/-- How a call of a Go function that may reach `logger.Fatal` ends. -/
inductive Outcome (α : Type) where
  | ret : α → Outcome α
  | fatal : Outcome α
  deriving DecidableEq, Repr

/-- Log lines written by a call together with the way it ended. -/
structure Run (α : Type) where
  log : List LogLine
  outcome : Outcome α
  deriving DecidableEq, Repr

/-! ## Addresses and the library interface -/

/-- Go `net.IP`: a byte slice, empty (nil) when parsing failed. -/
abbrev IP := List Nat

/-- Go `net.IPNet`: network number and mask. -/
structure IPNet where
  IP : IP
  Mask : List Nat
  deriving DecidableEq, Repr

/-- Library functions called by `isAllowedToAccessMetricsEndpoint` whose code is
not part of `httpd.go`.

* `BasicAuth` is `(*http.Request).BasicAuth`: `none` when `ok` is false,
  otherwise the decoded username and password.
* `ParseCIDR` is `net.ParseCIDR`, keeping the network and the error text.
* `ParseIP` is `net.ParseIP`, `Contains` is `(*net.IPNet).Contains`.
* `SplitHostPort` is `net.SplitHostPort`, `none` for an error.
* `ClientIP` is `request.ClientIP`, the header-derived client address. -/
structure Lib where
  BasicAuth : Request → Option (String × String)
  ParseCIDR : String → Except String IPNet
  ParseIP : String → IP
  Contains : IPNet → IP → Bool
  SplitHostPort : String → Option (String × String)
  ClientIP : Request → String

/-- Modelled from the spec: `request.FindRemoteIP` is not among the source files.
The spec takes the caller's origin address "strictly from the transport-layer
peer address, never from a client-supplied forwarded-for header", and the
comment at the call site says `r.RemoteAddr` is used; so it is the host part of
`RemoteAddr`, or `RemoteAddr` itself when that has no port. -/
def FindRemoteIP (L : Lib) (r : Request) : String :=
  match L.SplitHostPort r.RemoteAddr with
  | some (remoteIP, _) => remoteIP
  | none => r.RemoteAddr

/-! ## The admission check of the metrics endpoint -/

/-- The `for _, cidr := range config.Opts.MetricsAllowedNetworks()` loop of
`isAllowedToAccessMetricsEndpoint` followed by the final `return false`:
a block that does not parse is fatal when the loop reaches it, the first
block containing the peer address returns true. -/
def allowedNetworksLoop (L : Lib) (r : Request) : List String → Run Bool
  | [] => ⟨[], Outcome.ret false⟩
  | cidr :: rest =>
    match L.ParseCIDR cidr with
    | Except.error err =>
      ⟨[⟨Level.Fatal, "[Metrics] Unable to parse CIDR " ++ err⟩], Outcome.fatal⟩
    | Except.ok network =>
      if L.Contains network (L.ParseIP (FindRemoteIP L r)) = true then
        ⟨[], Outcome.ret true⟩
      else
        allowedNetworksLoop L r rest

/-- Go `isAllowedToAccessMetricsEndpoint(r)`, reading `config.Opts` from `O`. -/
def isAllowedToAccessMetricsEndpoint (L : Lib) (O : Options) (r : Request) : Run Bool :=
  if O.MetricsUsername ≠ "" ∧ O.MetricsPassword ≠ "" then
    let clientIP := L.ClientIP r
    match L.BasicAuth r with
    | none =>
      ⟨[⟨Level.Info, "[Metrics] [ClientIP=" ++ clientIP ++ "] No authentication header sent"⟩],
        Outcome.ret false⟩
    | some (username, password) =>
      if username = "" ∨ password = "" then
        ⟨[⟨Level.Info, "[Metrics] [ClientIP=" ++ clientIP ++ "] Empty username or password"⟩],
          Outcome.ret false⟩
      else if username ≠ O.MetricsUsername ∨ password ≠ O.MetricsPassword then
        ⟨[⟨Level.Error, "[Metrics] [ClientIP=" ++ clientIP ++ "] Invalid username or password"⟩],
          Outcome.ret false⟩
      else
        allowedNetworksLoop L r O.MetricsAllowedNetworks
  else
    allowedNetworksLoop L r O.MetricsAllowedNetworks

/-! ## A concrete library instance (IPv4 text forms)

`goLib` follows the Go standard library on dotted-decimal IPv4 addresses,
`a.b.c.d/n` blocks, `host:port` peer addresses and `Authorization: Basic`
headers.  It is used only to evaluate the definitions above on concrete
requests; the general theorems hold for every `Lib`. -/

namespace Go

/-- Value of a decimal digit. -/
def digit? (c : Char) : Option Nat :=
  if 48 ≤ c.toNat ∧ c.toNat ≤ 57 then some (c.toNat - 48) else none

/-- Decimal value of a non-empty run of digits (`dtoi` consuming all input). -/
def dtoiAll : List Char → Option Nat
  | [] => none
  | cs => cs.foldl (fun acc c => acc.bind fun n => (digit? c).map fun d => 10 * n + d) (some 0)

/-- Split at every occurrence of `sep` (`strings.Split` with a one-byte separator). -/
def splitAt (sep : Char) : List Char → List (List Char)
  | [] => [[]]
  | c :: cs =>
    match splitAt sep cs with
    | [] => [[]]
    | field :: fields => if c = sep then [] :: field :: fields else (c :: field) :: fields

/-- One field of a dotted-decimal address: one to three digits, no leading
zero unless the field is `0`, value at most 255. -/
def octet? (cs : List Char) : Option Nat :=
  if cs.length = 0 ∨ 3 < cs.length then none
  else if 1 < cs.length ∧ cs.head? = some '0' then none
  else (dtoiAll cs).bind fun n => if n ≤ 255 then some n else none

/-- The four bytes of a dotted-decimal IPv4 address. -/
def parseIPv4 (cs : List Char) : Option (List Nat) :=
  match splitAt '.' cs with
  | [a, b, c, d] =>
    (octet? a).bind fun a => (octet? b).bind fun b =>
    (octet? c).bind fun c => (octet? d).map fun d => [a, b, c, d]
  | _ => none

/-- The twelve leading bytes of an IPv4 address in 16-byte form. -/
def v4InV6 : List Nat := [0, 0, 0, 0, 0, 0, 0, 0, 0, 0, 255, 255]

/-- Go `net.ParseIP` on IPv4 text: the 16-byte form, or nil. -/
def ParseIP (s : String) : IP :=
  match parseIPv4 s.data with
  | some b => v4InV6 ++ b
  | none => []

/-- Go `IP.To4`: the 4-byte form of an IPv4 address, or nil. -/
def To4 (ip : IP) : IP :=
  if ip.length = 4 then ip
  else if ip.length = 16 ∧ ip.take 12 = v4InV6 then ip.drop 12
  else []

/-- Go `net.CIDRMask(ones, 32)`. -/
def CIDRMask (ones : Nat) : List Nat :=
  (List.range 4).map fun i =>
    if 8 * (i + 1) ≤ ones then 255
    else if ones ≤ 8 * i then 0
    else 256 - 2 ^ (8 - (ones - 8 * i))

/-- Go `net.ParseCIDR` on IPv4 blocks `a.b.c.d/n`. -/
def ParseCIDR (s : String) : Except String IPNet :=
  match splitAt '/' s.data with
  | addr :: mask :: rest =>
    match parseIPv4 addr, dtoiAll (List.intercalate ['/'] (mask :: rest)) with
    | some ip, some n =>
      if n ≤ 32 then
        Except.ok ⟨List.zipWith Nat.land ip (CIDRMask n), CIDRMask n⟩
      else Except.error ("invalid CIDR address: " ++ s)
    | _, _ => Except.error ("invalid CIDR address: " ++ s)
  | _ => Except.error ("invalid CIDR address: " ++ s)

/-- Go `(*net.IPNet).Contains`. -/
def Contains (n : IPNet) (ip : IP) : Bool :=
  let ip := if To4 ip = [] then ip else To4 ip
  decide (ip.length = n.IP.length) &&
    (List.zipWith (fun a m => Nat.land a m) n.IP n.Mask ==
      List.zipWith (fun a m => Nat.land a m) ip n.Mask)

/-- Go `net.SplitHostPort` on `host:port` without brackets: split at the last
colon, an error when there is none or the host has another one. -/
def SplitHostPort (s : String) : Option (String × String) :=
  match (splitAt ':' s.data).reverse with
  | port :: host :: [] => if '[' ∈ host ∨ ']' ∈ host then none else some (⟨host⟩, ⟨port⟩)
  | _ => none

/-- Go `Header.Get`: the first value stored under the key, or the empty string. -/
def headerGet (h : List (String × List String)) (key : String) : String :=
  match h.find? (fun kv => kv.1 == key) with
  | some (_, v :: _) => v
  | _ => ""

/-- Value of a character of the standard base64 alphabet. -/
def b64? (c : Char) : Option Nat :=
  let n := c.toNat
  if 65 ≤ n ∧ n ≤ 90 then some (n - 65)
  else if 97 ≤ n ∧ n ≤ 122 then some (n - 97 + 26)
  else if 48 ≤ n ∧ n ≤ 57 then some (n - 48 + 52)
  else if c = '+' then some 62
  else if c = '/' then some 63
  else none

/-- Go `base64.StdEncoding.DecodeString` (padded quanta, no line breaks). -/
def b64Decode : List Char → Option (List Nat)
  | [] => some []
  | [a, b, '=', '='] =>
    (b64? a).bind fun a => (b64? b).map fun b => [(a * 4 + b / 16) % 256]
  | [a, b, c, '='] =>
    (b64? a).bind fun a => (b64? b).bind fun b => (b64? c).map fun c =>
      [(a * 4 + b / 16) % 256, (b * 16 + c / 4) % 256]
  | a :: b :: c :: d :: rest =>
    (b64? a).bind fun a => (b64? b).bind fun b => (b64? c).bind fun c =>
    (b64? d).bind fun d => (b64Decode rest).map fun tl =>
      (a * 4 + b / 16) % 256 :: (b * 16 + c / 4) % 256 :: (c * 64 + d) % 256 :: tl
  | _ => none

/-- Go `strings.Cut(s, ":")` on characters. -/
def cutColon : List Char → Option (List Char × List Char)
  | [] => none
  | c :: cs =>
    if c = ':' then some ([], cs)
    else (cutColon cs).map fun p => (c :: p.1, p.2)

/-- Go `(*http.Request).BasicAuth`: the credentials of an
`Authorization: Basic <base64(user:pass)>` header. -/
def BasicAuth (r : Request) : Option (String × String) :=
  let auth := (headerGet r.Header "Authorization").data
  if auth.length < 6 ∨ (auth.take 6).map Char.toLower ≠ "basic ".data then none
  else
    (b64Decode (auth.drop 6)).bind fun bytes =>
      (cutColon (bytes.map Char.ofNat)).map fun p => (⟨p.1⟩, ⟨p.2⟩)

/-- Strip leading and trailing blanks (`strings.TrimSpace` on spaces). -/
def trimSpace (cs : List Char) : List Char :=
  ((cs.dropWhile (· = ' ')).reverse.dropWhile (· = ' ')).reverse

/-- The client address `request.ClientIP` reports: the first `X-Forwarded-For`
entry or the `X-Real-Ip` value when it is an IP address, else the peer host. -/
def ClientIP (r : Request) : String :=
  let candidate (key : String) : Option String :=
    match splitAt ',' (headerGet r.Header key).data with
    | first :: _ => if ParseIP ⟨trimSpace first⟩ = [] then none else some ⟨trimSpace first⟩
    | [] => none
  match candidate "X-Forwarded-For", candidate "X-Real-Ip" with
  | some a, _ => a
  | none, some a => a
  | none, none =>
    match SplitHostPort r.RemoteAddr with
    | some (host, _) => host
    | none => r.RemoteAddr

end Go

/-- The library instance assembled from the definitions of `Go`. -/
def goLib : Lib where
  BasicAuth := Go.BasicAuth
  ParseCIDR := Go.ParseCIDR
  ParseIP := Go.ParseIP
  Contains := Go.Contains
  SplitHostPort := Go.SplitHostPort
  ClientIP := Go.ClientIP

/-! ## TLS policy -/

namespace tls

/-- Go `tls.VersionTLS12`. -/
def VersionTLS12 : Nat := 0x0303

/-- Go `tls.CurveP256`. -/
def CurveP256 : Nat := 23

/-- Go `tls.X25519`. -/
def X25519 : Nat := 29

/-- Go `tls.TLS_ECDHE_ECDSA_WITH_AES_256_GCM_SHA384`. -/
def TLS_ECDHE_ECDSA_WITH_AES_256_GCM_SHA384 : Nat := 0xc02c

/-- Go `tls.TLS_ECDHE_RSA_WITH_AES_256_GCM_SHA384`. -/
def TLS_ECDHE_RSA_WITH_AES_256_GCM_SHA384 : Nat := 0xc030

/-- Go `tls.TLS_ECDHE_ECDSA_WITH_CHACHA20_POLY1305`. -/
def TLS_ECDHE_ECDSA_WITH_CHACHA20_POLY1305 : Nat := 0xcca9

/-- Go `tls.TLS_ECDHE_RSA_WITH_CHACHA20_POLY1305`. -/
def TLS_ECDHE_RSA_WITH_CHACHA20_POLY1305 : Nat := 0xcca8

/-- Go `tls.TLS_ECDHE_ECDSA_WITH_AES_128_GCM_SHA256`. -/
def TLS_ECDHE_ECDSA_WITH_AES_128_GCM_SHA256 : Nat := 0xc02b

/-- Go `tls.TLS_ECDHE_RSA_WITH_AES_128_GCM_SHA256`. -/
def TLS_ECDHE_RSA_WITH_AES_128_GCM_SHA256 : Nat := 0xc02f

/-- Key exchange of a TLS 1.0 to 1.2 cipher suite. -/
inductive KeyExchange where
  | RSA
  | ECDHE
  deriving DecidableEq, Repr

/-- Kind of server key a cipher suite authenticates with. -/
inductive Auth where
  | RSA
  | ECDSA
  deriving DecidableEq, Repr

/-- Record protection of a cipher suite. -/
inductive Cipher where
  | RC4_128
  | TripleDES_EDE_CBC
  | AES_128_CBC
  | AES_256_CBC
  | AES_128_GCM
  | AES_256_GCM
  | CHACHA20_POLY1305
  deriving DecidableEq, Repr

/-- The three parts named by a cipher suite constant `TLS_<kx>_<auth>_WITH_<cipher>`. -/
structure Suite where
  kx : KeyExchange
  auth : Auth
  cipher : Cipher
  deriving DecidableEq, Repr

/-- The TLS 1.0 to 1.2 cipher suites of Go `crypto/tls` by identifier, read off
the names of its constants (`TLS_RSA_WITH_...` has RSA key exchange and an RSA
key). -/
def suite? (id : Nat) : Option Suite :=
  if id = 0x0005 then some ⟨KeyExchange.RSA, Auth.RSA, Cipher.RC4_128⟩
  else if id = 0x000a then some ⟨KeyExchange.RSA, Auth.RSA, Cipher.TripleDES_EDE_CBC⟩
  else if id = 0x002f then some ⟨KeyExchange.RSA, Auth.RSA, Cipher.AES_128_CBC⟩
  else if id = 0x0035 then some ⟨KeyExchange.RSA, Auth.RSA, Cipher.AES_256_CBC⟩
  else if id = 0x003c then some ⟨KeyExchange.RSA, Auth.RSA, Cipher.AES_128_CBC⟩
  else if id = 0x009c then some ⟨KeyExchange.RSA, Auth.RSA, Cipher.AES_128_GCM⟩
  else if id = 0x009d then some ⟨KeyExchange.RSA, Auth.RSA, Cipher.AES_256_GCM⟩
  else if id = 0xc007 then some ⟨KeyExchange.ECDHE, Auth.ECDSA, Cipher.RC4_128⟩
  else if id = 0xc009 then some ⟨KeyExchange.ECDHE, Auth.ECDSA, Cipher.AES_128_CBC⟩
  else if id = 0xc00a then some ⟨KeyExchange.ECDHE, Auth.ECDSA, Cipher.AES_256_CBC⟩
  else if id = 0xc011 then some ⟨KeyExchange.ECDHE, Auth.RSA, Cipher.RC4_128⟩
  else if id = 0xc012 then some ⟨KeyExchange.ECDHE, Auth.RSA, Cipher.TripleDES_EDE_CBC⟩
  else if id = 0xc013 then some ⟨KeyExchange.ECDHE, Auth.RSA, Cipher.AES_128_CBC⟩
  else if id = 0xc014 then some ⟨KeyExchange.ECDHE, Auth.RSA, Cipher.AES_256_CBC⟩
  else if id = 0xc023 then some ⟨KeyExchange.ECDHE, Auth.ECDSA, Cipher.AES_128_CBC⟩
  else if id = 0xc027 then some ⟨KeyExchange.ECDHE, Auth.RSA, Cipher.AES_128_CBC⟩
  else if id = 0xc02b then some ⟨KeyExchange.ECDHE, Auth.ECDSA, Cipher.AES_128_GCM⟩
  else if id = 0xc02c then some ⟨KeyExchange.ECDHE, Auth.ECDSA, Cipher.AES_256_GCM⟩
  else if id = 0xc02f then some ⟨KeyExchange.ECDHE, Auth.RSA, Cipher.AES_128_GCM⟩
  else if id = 0xc030 then some ⟨KeyExchange.ECDHE, Auth.RSA, Cipher.AES_256_GCM⟩
  else if id = 0xcca8 then some ⟨KeyExchange.ECDHE, Auth.RSA, Cipher.CHACHA20_POLY1305⟩
  else if id = 0xcca9 then some ⟨KeyExchange.ECDHE, Auth.ECDSA, Cipher.CHACHA20_POLY1305⟩
  else none

/-- Authenticated encryption with associated data: AES-GCM or ChaCha20-Poly1305. -/
def Cipher.isAEAD : Cipher → Bool
  | Cipher.AES_128_GCM => true
  | Cipher.AES_256_GCM => true
  | Cipher.CHACHA20_POLY1305 => true
  | _ => false

/-- AES in Galois/counter mode. -/
def Cipher.isAESGCM : Cipher → Bool
  | Cipher.AES_128_GCM => true
  | Cipher.AES_256_GCM => true
  | _ => false

/-- The identifier names a suite with ephemeral (ECDHE) key exchange. -/
def forwardSecret (id : Nat) : Bool :=
  match suite? id with
  | some s => decide (s.kx = KeyExchange.ECDHE)
  | none => false

/-- The identifier names a suite with AEAD record protection. -/
def aead (id : Nat) : Bool :=
  match suite? id with
  | some s => s.cipher.isAEAD
  | none => false

/-- The identifier names a suite authenticated with the given kind of key. -/
def keyedBy (a : Auth) (id : Nat) : Bool :=
  match suite? id with
  | some s => decide (s.auth = a)
  | none => false

/-- Go `tls.Config`, the fields `httpd.go` sets.  `GetCertificate` holds the host
policy domain of the `autocert.Manager` whose method is installed. -/
structure Config where
  MinVersion : Nat := 0
  PreferServerCipherSuites : Bool := false
  CurvePreferences : List Nat := []
  CipherSuites : List Nat := []
  GetCertificate : Option String := none
  NextProtos : List String := []
  deriving DecidableEq, Repr

end tls

namespace acme

/-- The constant `acme.ALPNProto` of `golang.org/x/crypto/acme`. -/
def ALPNProto : String := "acme-tls/1"

end acme

/-- Go `tlsConfig()`. -/
def tlsConfig : tls.Config where
  MinVersion := tls.VersionTLS12
  PreferServerCipherSuites := true
  CurvePreferences := [tls.CurveP256, tls.X25519]
  CipherSuites := [
    tls.TLS_ECDHE_ECDSA_WITH_AES_256_GCM_SHA384,
    tls.TLS_ECDHE_RSA_WITH_AES_256_GCM_SHA384,
    tls.TLS_ECDHE_ECDSA_WITH_CHACHA20_POLY1305,
    tls.TLS_ECDHE_RSA_WITH_CHACHA20_POLY1305,
    tls.TLS_ECDHE_ECDSA_WITH_AES_128_GCM_SHA256,
    tls.TLS_ECDHE_RSA_WITH_AES_128_GCM_SHA256]

/-! ## Listener selection -/

/-- Go `http.Server`, the fields `httpd.go` sets (timeouts in seconds); the
handler built by `setupHandler` is left out. -/
structure Server where
  Addr : String := ""
  ReadTimeout : Nat := 0
  WriteTimeout : Nat := 0
  IdleTimeout : Nat := 0
  TLSConfig : Option tls.Config := none
  deriving DecidableEq, Repr

/-- The five ways of serving; each is one `start...Server` function:
`InheritedSocket` is `startSystemdSocketServer`, `UnixSocket` is
`startUnixSocketServer`, `AutoCertTLS` is `startAutoCertTLSServer`,
`StaticTLS` is `startTLSServer`, `PlainHTTP` is `startHTTPServer`. -/
inductive ListenerMode where
  | InheritedSocket
  | UnixSocket
  | AutoCertTLS
  | StaticTLS
  | PlainHTTP
  deriving DecidableEq, Repr

/-- What `StartWebServer` reads from the process: `os.Getenv("LISTEN_PID")`
(empty when unset) and `os.Getpid()`. -/
structure Process where
  LISTEN_PID : String := ""
  Pid : Int
  deriving DecidableEq, Repr

/-- Go `strconv.Itoa`: decimal text of an integer. -/
def Itoa (n : Int) : String := toString n

/-- Go `strings.HasPrefix`. -/
def HasPrefix (s p : String) : Bool := p.data.isPrefixOf s.data

/-- Go `startSystemdSocketServer`: only launches the goroutine serving on the
inherited descriptor 3; the server value is unchanged. -/
def startSystemdSocketServer (server : Server) : Server := server

/-- Go `startUnixSocketServer`: removes the socket file and launches the
goroutine listening on it; the server value is unchanged. -/
def startUnixSocketServer (server : Server) (_socketFile : String) : Server := server

/-- Go `startHTTPServer`: only launches the goroutine; the server value is
unchanged. -/
def startHTTPServer (server : Server) : Server := server

/-- Go `startAutoCertTLSServer`, the synchronous part: the server with its
address and TLS configuration set, and the second server `s` answering the
http-01 challenge.  The certificate cache built from `store` and the two
goroutines are left out. -/
def startAutoCertTLSServer (server : Server) (certDomain : String) : Server × Server :=
  let server := { server with Addr := ":https" }
  let config := tlsConfig
  let config := { config with GetCertificate := some certDomain }
  let config := { config with NextProtos := ["h2", "http/1.1", acme.ALPNProto] }
  let server := { server with TLSConfig := some config }
  let s : Server := { Addr := ":http" }
  (server, s)

/-- Go `startTLSServer`, the synchronous part. -/
def startTLSServer (server : Server) (_certFile _keyFile : String) : Server :=
  { server with TLSConfig := some tlsConfig }

/-- Result of `StartWebServer`: the start function taken, the returned server,
the challenge server when one was started, and `config.Opts` afterwards. -/
structure Started where
  mode : ListenerMode
  server : Server
  challenge : Option Server := none
  Opts : Options
  deriving DecidableEq, Repr

/-- Go `StartWebServer`: builds the server and takes the first case of the
`switch` whose condition holds. -/
def StartWebServer (P : Process) (O : Options) : Started :=
  let certFile := O.CertFile
  let keyFile := O.CertKeyFile
  let certDomain := O.CertDomain
  let listenAddr := O.ListenAddr
  let server : Server := {
    ReadTimeout := O.HTTPServerTimeout
    WriteTimeout := O.HTTPServerTimeout
    IdleTimeout := O.HTTPServerTimeout }
  if P.LISTEN_PID = Itoa P.Pid then
    { mode := ListenerMode.InheritedSocket, server := startSystemdSocketServer server, Opts := O }
  else if HasPrefix listenAddr "/" = true then
    { mode := ListenerMode.UnixSocket, server := startUnixSocketServer server listenAddr,
      Opts := O }
  else if certDomain ≠ "" then
    let O := { O with HTTPS := true }
    let started := startAutoCertTLSServer server certDomain
    { mode := ListenerMode.AutoCertTLS, server := started.1, challenge := some started.2, Opts := O }
  else if certFile ≠ "" ∧ keyFile ≠ "" then
    let O := { O with HTTPS := true }
    let server := { server with Addr := listenAddr }
    { mode := ListenerMode.StaticTLS, server := startTLSServer server certFile keyFile, Opts := O }
  else
    let server := { server with Addr := listenAddr }
    { mode := ListenerMode.PlainHTTP, server := startHTTPServer server, Opts := O }

/-! ## Concrete configurations and requests -/

namespace Example

/-- Nothing configured for the metrics endpoint. -/
def unconfigured : Options := {}

/-- Credentials `admin`/`secret`, no network block. -/
def adminSecret : Options := { MetricsUsername := "admin", MetricsPassword := "secret" }

/-- Two well-formed network blocks, no credentials. -/
def blocksOnly : Options := { MetricsAllowedNetworks := ["1.2.3.0/24", "192.168.0.0/16"] }

/-- Credentials `admin`/`secret` and the block `10.0.0.0/8`. -/
def adminSecretBlock : Options :=
  { MetricsUsername := "admin", MetricsPassword := "secret",
    MetricsAllowedNetworks := ["10.0.0.0/8"] }

/-- A block list whose only entry has no mask length and so is no CIDR. -/
def malformedBlock : Options := { MetricsAllowedNetworks := ["10.0.0.0"] }

/-- A request from the loopback address without headers. -/
def fromLoopback : Request := { RemoteAddr := "127.0.0.1:51000" }

/-- A request from the loopback address carrying `admin:secret`. -/
def loopbackAdminSecret : Request :=
  { RemoteAddr := "127.0.0.1:51000", Header := [("Authorization", ["Basic YWRtaW46c2VjcmV0"])] }

/-- A request from the loopback address carrying `admin:wrong`. -/
def loopbackAdminWrong : Request :=
  { RemoteAddr := "127.0.0.1:51000", Header := [("Authorization", ["Basic YWRtaW46d3Jvbmc="])] }

/-- A request from peer `10.0.0.1` that claims origin `1.2.3.4` in a forwarded header. -/
def spoofed : Request :=
  { RemoteAddr := "10.0.0.1:40222", Header := [("X-Forwarded-For", ["1.2.3.4"])] }

/-- A request from peer `10.0.0.1` carrying `admin:wrong` and no forwarded header. -/
def insideWrong : Request :=
  { RemoteAddr := "10.0.0.1:40222", Header := [("Authorization", ["Basic YWRtaW46d3Jvbmc="])] }

/-- The request `insideWrong` with a forwarded header added. -/
def insideWrongForwarded : Request :=
  { RemoteAddr := "10.0.0.1:40222",
    Header := [("Authorization", ["Basic YWRtaW46d3Jvbmc="]), ("X-Forwarded-For", ["1.2.3.4"])] }

/-- A path listen address with certificate, key and ACME domain all set. -/
def socketPath : Options :=
  { ListenAddr := "/tmp/app.sock", CertFile := "/etc/cert.pem", CertKeyFile := "/etc/key.pem",
    CertDomain := "example.org" }

/-- A host:port listen address with certificate, key and ACME domain all set. -/
def acmeAndFiles : Options :=
  { ListenAddr := "127.0.0.1:8080", CertFile := "/etc/cert.pem", CertKeyFile := "/etc/key.pem",
    CertDomain := "example.org" }

/-- A host:port listen address with a certificate and a key, no ACME domain. -/
def certAndKey : Options :=
  { ListenAddr := "127.0.0.1:8443", CertFile := "/etc/cert.pem", CertKeyFile := "/etc/key.pem" }

/-- A host:port listen address with a certificate but no key, no ACME domain. -/
def certOnly : Options := { ListenAddr := "127.0.0.1:8080", CertFile := "/etc/cert.pem" }

end Example

/-! ## Lemmas on the network loop -/

/-- The peer address used by the loop depends on `RemoteAddr` only. -/
theorem FindRemoteIP_congr (L : Lib) (r₁ r₂ : Request) (h : r₁.RemoteAddr = r₂.RemoteAddr) :
    FindRemoteIP L r₁ = FindRemoteIP L r₂ := by
  unfold FindRemoteIP
  rw [h]

/-- Two requests with the same `RemoteAddr` run the loop identically. -/
theorem allowedNetworksLoop_congr (L : Lib) (r₁ r₂ : Request)
    (h : r₁.RemoteAddr = r₂.RemoteAddr) (blocks : List String) :
    allowedNetworksLoop L r₁ blocks = allowedNetworksLoop L r₂ blocks := by
  induction blocks with
  | nil => rfl
  | cons cidr rest ih =>
    simp only [allowedNetworksLoop, FindRemoteIP_congr L r₁ r₂ h, ih]

/-- The loop never consults `ClientIP`. -/
theorem allowedNetworksLoop_ClientIP (L : Lib) (f : Request → String) (r : Request)
    (blocks : List String) :
    allowedNetworksLoop { L with ClientIP := f } r blocks = allowedNetworksLoop L r blocks := by
  induction blocks with
  | nil => rfl
  | cons cidr rest ih =>
    have hip : FindRemoteIP { L with ClientIP := f } r = FindRemoteIP L r := rfl
    simp only [allowedNetworksLoop, hip, ih]

/-- When every block parses, the loop returns, and it returns true exactly when
some block contains the peer address. -/
theorem allowedNetworksLoop_ret (L : Lib) (r : Request) (blocks : List String)
    (hwf : ∀ cidr ∈ blocks, ∃ network, L.ParseCIDR cidr = Except.ok network) :
    ∃ b, (allowedNetworksLoop L r blocks).outcome = Outcome.ret b ∧
      (b = true ↔ ∃ cidr ∈ blocks, ∃ network, L.ParseCIDR cidr = Except.ok network ∧
        L.Contains network (L.ParseIP (FindRemoteIP L r)) = true) := by
  induction blocks with
  | nil => exact ⟨false, rfl, by simp⟩
  | cons cidr rest ih =>
    obtain ⟨network, hnet⟩ := hwf cidr (List.mem_cons_self _ _)
    obtain ⟨b, hb, hiff⟩ := ih (fun c hc => hwf c (List.mem_cons_of_mem _ hc))
    by_cases hc : L.Contains network (L.ParseIP (FindRemoteIP L r)) = true
    · refine ⟨true, ?_, ?_⟩
      · simp [allowedNetworksLoop, hnet, hc]
      · simp only [true_iff]
        exact ⟨cidr, List.mem_cons_self _ _, network, hnet, hc⟩
    · refine ⟨b, ?_, ?_⟩
      · simp [allowedNetworksLoop, hnet, hc, hb]
      · rw [hiff]
        constructor
        · rintro ⟨c, hmem, n, hn, hcon⟩
          exact ⟨c, List.mem_cons_of_mem _ hmem, n, hn, hcon⟩
        · rintro ⟨c, hmem, n, hn, hcon⟩
          rcases List.mem_cons.mp hmem with rfl | hmem
          · rw [hnet] at hn
            cases hn
            exact absurd hcon hc
          · exact ⟨c, hmem, n, hn, hcon⟩

/-- Once the credential step is passed or skipped, the check is the loop. -/
theorem isAllowed_of_no_credentials (L : Lib) (O : Options) (r : Request)
    (h : ¬ (O.MetricsUsername ≠ "" ∧ O.MetricsPassword ≠ "")) :
    isAllowedToAccessMetricsEndpoint L O r = allowedNetworksLoop L r O.MetricsAllowedNetworks := by
  unfold isAllowedToAccessMetricsEndpoint
  rw [if_neg h]

/-! ## Claims on the admission check -/

/-- C1, as the code has it: with the metrics username and password both unset and
no allowed network block configured, `isAllowedToAccessMetricsEndpoint` returns
false for every request, logging nothing: the endpoint is closed, not open. -/
theorem metrics_closed_when_unconfigured (L : Lib) (O : Options) (r : Request)
    (huser : O.MetricsUsername = "") (_hpass : O.MetricsPassword = "")
    (hnets : O.MetricsAllowedNetworks = []) :
    isAllowedToAccessMetricsEndpoint L O r = ⟨[], Outcome.ret false⟩ := by
  rw [isAllowed_of_no_credentials L O r (by simp [huser]), hnets]
  rfl

/-- C1 fails on the code: nothing is configured, the request comes from the
loopback address, and the check returns false where the claim says true. -/
theorem metrics_open_when_unconfigured_fails :
    Example.unconfigured.MetricsUsername = "" ∧ Example.unconfigured.MetricsPassword = "" ∧
    Example.unconfigured.MetricsAllowedNetworks = [] ∧
    (isAllowedToAccessMetricsEndpoint goLib Example.unconfigured Example.fromLoopback).outcome
      = Outcome.ret false ∧
    (isAllowedToAccessMetricsEndpoint goLib Example.unconfigured Example.fromLoopback).outcome
      ≠ Outcome.ret true := by
  decide

/-- Witness of C1 as amended, with a request that carries credentials. -/
theorem metrics_closed_when_unconfigured_witness :
    Example.unconfigured.MetricsUsername = "" ∧ Example.unconfigured.MetricsPassword = "" ∧
    Example.unconfigured.MetricsAllowedNetworks = [] ∧
    isAllowedToAccessMetricsEndpoint goLib Example.unconfigured Example.loopbackAdminSecret
      = ⟨[], Outcome.ret false⟩ :=
  ⟨rfl, rfl, rfl,
    metrics_closed_when_unconfigured goLib Example.unconfigured Example.loopbackAdminSecret
      rfl rfl rfl⟩

/-- C2, as the code has it: with a non-empty metrics username and password and no
allowed network block configured, `isAllowedToAccessMetricsEndpoint` returns
false for every request, also for one whose Basic credentials equal the
configured pair: matching credentials are necessary, never sufficient. -/
theorem metrics_credentials_without_networks_deny (L : Lib) (O : Options) (r : Request)
    (_huser : O.MetricsUsername ≠ "") (_hpass : O.MetricsPassword ≠ "")
    (hnets : O.MetricsAllowedNetworks = []) :
    (isAllowedToAccessMetricsEndpoint L O r).outcome = Outcome.ret false := by
  unfold isAllowedToAccessMetricsEndpoint
  rw [hnets]
  split
  · dsimp only
    split
    · rfl
    · split
      · rfl
      · split
        · rfl
        · rfl
  · rfl

/-- C2 fails on the code: `admin`/`secret` is configured with no network block,
the request presents `admin:secret`, and the check returns false. -/
theorem metrics_matching_credentials_admitted_fails :
    Example.adminSecret.MetricsUsername = "admin" ∧
    Example.adminSecret.MetricsPassword = "secret" ∧
    Example.adminSecret.MetricsAllowedNetworks = [] ∧
    goLib.BasicAuth Example.loopbackAdminSecret = some ("admin", "secret") ∧
    (isAllowedToAccessMetricsEndpoint goLib Example.adminSecret
      Example.loopbackAdminSecret).outcome = Outcome.ret false := by
  decide

/-- Witness of C2 as amended: `admin:wrong` against `admin`/`secret`. -/
theorem metrics_credentials_without_networks_deny_witness :
    Example.adminSecret.MetricsUsername ≠ "" ∧ Example.adminSecret.MetricsPassword ≠ "" ∧
    Example.adminSecret.MetricsAllowedNetworks = [] ∧
    (isAllowedToAccessMetricsEndpoint goLib Example.adminSecret
      Example.loopbackAdminWrong).outcome = Outcome.ret false :=
  ⟨by decide, by decide, rfl,
    metrics_credentials_without_networks_deny goLib Example.adminSecret
      Example.loopbackAdminWrong (by decide) (by decide) rfl⟩

/-- C3: with a non-empty list of allowed network blocks that all parse and no
metrics credentials configured, `isAllowedToAccessMetricsEndpoint` returns a
boolean for every request, and it is true if and only if some configured block
contains the request's peer address. -/
theorem metrics_networks_only_iff_peer_inside (L : Lib) (O : Options) (r : Request)
    (huser : O.MetricsUsername = "") (_hpass : O.MetricsPassword = "")
    (_hne : O.MetricsAllowedNetworks ≠ [])
    (hwf : ∀ cidr ∈ O.MetricsAllowedNetworks, ∃ network, L.ParseCIDR cidr = Except.ok network) :
    ∃ b, (isAllowedToAccessMetricsEndpoint L O r).outcome = Outcome.ret b ∧
      (b = true ↔ ∃ cidr ∈ O.MetricsAllowedNetworks, ∃ network,
        L.ParseCIDR cidr = Except.ok network ∧
        L.Contains network (L.ParseIP (FindRemoteIP L r)) = true) := by
  rw [isAllowed_of_no_credentials L O r (by simp [huser])]
  exact allowedNetworksLoop_ret L r O.MetricsAllowedNetworks hwf

/-- Witness of C3: blocks `1.2.3.0/24` and `192.168.0.0/16`, peer `10.0.0.1`
presenting `1.2.3.4` in a forwarded header; the request is denied. -/
theorem metrics_networks_only_iff_peer_inside_witness :
    Example.blocksOnly.MetricsUsername = "" ∧ Example.blocksOnly.MetricsPassword = "" ∧
    Example.blocksOnly.MetricsAllowedNetworks ≠ [] ∧
    (∀ cidr ∈ Example.blocksOnly.MetricsAllowedNetworks,
      ∃ network, goLib.ParseCIDR cidr = Except.ok network) ∧
    FindRemoteIP goLib Example.spoofed = "10.0.0.1" ∧
    (isAllowedToAccessMetricsEndpoint goLib Example.blocksOnly Example.spoofed).outcome
      = Outcome.ret false ∧
    ∃ b, (isAllowedToAccessMetricsEndpoint goLib Example.blocksOnly Example.spoofed).outcome
        = Outcome.ret b ∧
      (b = true ↔ ∃ cidr ∈ Example.blocksOnly.MetricsAllowedNetworks, ∃ network,
        goLib.ParseCIDR cidr = Except.ok network ∧
        goLib.Contains network (goLib.ParseIP (FindRemoteIP goLib Example.spoofed)) = true) := by
  have hwf : ∀ cidr ∈ Example.blocksOnly.MetricsAllowedNetworks,
      ∃ network, goLib.ParseCIDR cidr = Except.ok network := by
    intro cidr hmem
    simp only [Example.blocksOnly, List.mem_cons, List.mem_singleton, List.not_mem_nil,
      or_false] at hmem
    rcases hmem with rfl | rfl
    · exact ⟨⟨[1, 2, 3, 0], [255, 255, 255, 0]⟩, rfl⟩
    · exact ⟨⟨[192, 168, 0, 0], [255, 255, 0, 0]⟩, rfl⟩
  exact ⟨rfl, rfl, by decide, hwf, by decide, by decide,
    metrics_networks_only_iff_peer_inside goLib Example.blocksOnly Example.spoofed
      rfl rfl (by decide) hwf⟩

/-- C4: the decision ignores forwarded-for headers.  Two requests with the same
`RemoteAddr` and the same Basic credentials end the check the same way,
whatever else their headers hold, and replacing the header-derived
`ClientIP` by any other function leaves the way the check ends unchanged:
that value only reaches the log. -/
theorem metrics_decision_ignores_forwarded_headers (L : Lib) (O : Options) (r₁ r₂ : Request)
    (haddr : r₁.RemoteAddr = r₂.RemoteAddr) (hauth : L.BasicAuth r₁ = L.BasicAuth r₂) :
    (isAllowedToAccessMetricsEndpoint L O r₁).outcome
        = (isAllowedToAccessMetricsEndpoint L O r₂).outcome ∧
      ∀ f : Request → String,
        (isAllowedToAccessMetricsEndpoint { L with ClientIP := f } O r₁).outcome
          = (isAllowedToAccessMetricsEndpoint L O r₁).outcome := by
  constructor
  · unfold isAllowedToAccessMetricsEndpoint
    rw [hauth, allowedNetworksLoop_congr L r₁ r₂ haddr]
    split
    · dsimp only
      split
      · rfl
      · split
        · rfl
        · split
          · rfl
          · rfl
    · rfl
  · intro f
    unfold isAllowedToAccessMetricsEndpoint
    rw [allowedNetworksLoop_ClientIP L f r₁]
    split
    · dsimp only
      split
      · rfl
      · split
        · rfl
        · split
          · rfl
          · rfl
    · rfl

/-- Witness of C4: peer `10.0.0.1` presenting `admin:wrong`, once without and
once with a forwarded header; the check ends the same way and only the logged
client address differs. -/
theorem metrics_decision_ignores_forwarded_headers_witness :
    Example.insideWrong.RemoteAddr = Example.insideWrongForwarded.RemoteAddr ∧
    goLib.BasicAuth Example.insideWrong = goLib.BasicAuth Example.insideWrongForwarded ∧
    Example.insideWrong.Header ≠ Example.insideWrongForwarded.Header ∧
    (isAllowedToAccessMetricsEndpoint goLib Example.adminSecretBlock Example.insideWrong).log
      ≠ (isAllowedToAccessMetricsEndpoint goLib Example.adminSecretBlock
          Example.insideWrongForwarded).log ∧
    (isAllowedToAccessMetricsEndpoint goLib Example.adminSecretBlock Example.insideWrong).outcome
      = (isAllowedToAccessMetricsEndpoint goLib Example.adminSecretBlock
          Example.insideWrongForwarded).outcome :=
  ⟨rfl, by decide, by decide, by decide,
    (metrics_decision_ignores_forwarded_headers goLib Example.adminSecretBlock
      Example.insideWrong Example.insideWrongForwarded rfl (by decide)).1⟩

/-- C5: when a metrics username and a metrics password are both set, a request
whose Basic credentials are missing, have an empty username or password, or
differ from the configured pair is denied: `isAllowedToAccessMetricsEndpoint`
returns false, whatever the configured network blocks and the peer address. -/
theorem metrics_bad_credentials_denied (L : Lib) (O : Options) (r : Request)
    (huser : O.MetricsUsername ≠ "") (hpass : O.MetricsPassword ≠ "")
    (hbad : L.BasicAuth r = none ∨
      ∃ username password, L.BasicAuth r = some (username, password) ∧
        (username = "" ∨ password = "" ∨
          username ≠ O.MetricsUsername ∨ password ≠ O.MetricsPassword)) :
    (isAllowedToAccessMetricsEndpoint L O r).outcome = Outcome.ret false := by
  unfold isAllowedToAccessMetricsEndpoint
  rw [if_pos ⟨huser, hpass⟩]
  rcases hbad with hnone | ⟨username, password, hsome, hcase⟩
  · simp only [hnone]
  · simp only [hsome]
    by_cases hempty : username = "" ∨ password = ""
    · rw [if_pos hempty]
    · rw [if_neg hempty]
      have hdiff : username ≠ O.MetricsUsername ∨ password ≠ O.MetricsPassword := by
        rcases hcase with h | h | h | h
        · exact absurd (Or.inl h) hempty
        · exact absurd (Or.inr h) hempty
        · exact Or.inl h
        · exact Or.inr h
      rw [if_pos hdiff]

/-- Witness of C5: `admin`/`secret` with block `10.0.0.0/8`; peer `10.0.0.1`
lies inside the block, presents `admin:wrong`, and is denied. -/
theorem metrics_bad_credentials_denied_witness :
    Example.adminSecretBlock.MetricsUsername ≠ "" ∧
    Example.adminSecretBlock.MetricsPassword ≠ "" ∧
    goLib.BasicAuth Example.insideWrong = some ("admin", "wrong") ∧
    goLib.Contains ⟨[10, 0, 0, 0], [255, 0, 0, 0]⟩
      (goLib.ParseIP (FindRemoteIP goLib Example.insideWrong)) = true ∧
    (isAllowedToAccessMetricsEndpoint goLib Example.adminSecretBlock
      Example.insideWrong).outcome = Outcome.ret false :=
  ⟨by decide, by decide, by decide, by decide,
    metrics_bad_credentials_denied goLib Example.adminSecretBlock Example.insideWrong
      (by decide) (by decide)
      (Or.inr ⟨"admin", "wrong", by decide, Or.inr (Or.inr (Or.inr (by decide)))⟩)⟩

/-- C10, as the code has it: when every configured network block parses as a
CIDR, `isAllowedToAccessMetricsEndpoint` yields a plain boolean for every
request and never reaches the fatal branch. -/
theorem metrics_never_fatal_when_blocks_parse (L : Lib) (O : Options) (r : Request)
    (hwf : ∀ cidr ∈ O.MetricsAllowedNetworks, ∃ network, L.ParseCIDR cidr = Except.ok network) :
    ∃ b, (isAllowedToAccessMetricsEndpoint L O r).outcome = Outcome.ret b := by
  obtain ⟨b, hb, _⟩ := allowedNetworksLoop_ret L r O.MetricsAllowedNetworks hwf
  unfold isAllowedToAccessMetricsEndpoint
  split
  · dsimp only
    split
    · exact ⟨false, rfl⟩
    · split
      · exact ⟨false, rfl⟩
      · split
        · exact ⟨false, rfl⟩
        · exact ⟨b, hb⟩
  · exact ⟨b, hb⟩

/-- C10 fails on the code: the only configured block is `10.0.0.0`, which has no
mask length; a request from the loopback address reaches `logger.Fatal`. -/
theorem metrics_malformed_block_fatal_per_request :
    Example.malformedBlock.MetricsAllowedNetworks = ["10.0.0.0"] ∧
    goLib.ParseCIDR "10.0.0.0" = Except.error "invalid CIDR address: 10.0.0.0" ∧
    (isAllowedToAccessMetricsEndpoint goLib Example.malformedBlock Example.fromLoopback).outcome
      = Outcome.fatal ∧
    ¬ ∃ b, (isAllowedToAccessMetricsEndpoint goLib Example.malformedBlock
      Example.fromLoopback).outcome = Outcome.ret b := by
  refine ⟨rfl, rfl, by decide, ?_⟩
  rintro ⟨b, hb⟩
  have hfatal : (isAllowedToAccessMetricsEndpoint goLib Example.malformedBlock
      Example.fromLoopback).outcome = Outcome.fatal := by decide
  rw [hfatal] at hb
  cases hb

/-- Witness of C10 as amended: credentials and one well-formed block, a request
with matching credentials from outside the block. -/
theorem metrics_never_fatal_when_blocks_parse_witness :
    (∀ cidr ∈ Example.adminSecretBlock.MetricsAllowedNetworks,
      ∃ network, goLib.ParseCIDR cidr = Except.ok network) ∧
    ∃ b, (isAllowedToAccessMetricsEndpoint goLib Example.adminSecretBlock
      Example.loopbackAdminSecret).outcome = Outcome.ret b := by
  have hwf : ∀ cidr ∈ Example.adminSecretBlock.MetricsAllowedNetworks,
      ∃ network, goLib.ParseCIDR cidr = Except.ok network := by
    intro cidr hmem
    simp only [Example.adminSecretBlock, List.mem_singleton] at hmem
    subst hmem
    exact ⟨⟨[10, 0, 0, 0], [255, 0, 0, 0]⟩, rfl⟩
  exact ⟨hwf,
    metrics_never_fatal_when_blocks_parse goLib Example.adminSecretBlock
      Example.loopbackAdminSecret hwf⟩

/-! ## Claims on the listener selection and the TLS policy -/

/-- C6: when the listen address starts with `/`, `StartWebServer` takes the
Unix-socket mode whatever the certificate file, key file and ACME domain are,
except when `LISTEN_PID` equals the decimal process id, where it takes the
inherited-socket mode. -/
theorem path_address_selects_unix_socket (P : Process) (O : Options)
    (hpath : HasPrefix O.ListenAddr "/" = true) :
    (StartWebServer P O).mode =
      if P.LISTEN_PID = Itoa P.Pid then ListenerMode.InheritedSocket
      else ListenerMode.UnixSocket := by
  unfold StartWebServer
  by_cases hpid : P.LISTEN_PID = Itoa P.Pid
  · simp only [hpid, if_true]
  · simp only [hpid, if_false, hpath, if_true]

/-- Witness of C6: `/tmp/app.sock` with certificate, key and ACME domain set, for
a process 4242 once without and once with `LISTEN_PID=4242`. -/
theorem path_address_selects_unix_socket_witness :
    HasPrefix Example.socketPath.ListenAddr "/" = true ∧
    Example.socketPath.CertDomain ≠ "" ∧ Example.socketPath.CertFile ≠ "" ∧
    Example.socketPath.CertKeyFile ≠ "" ∧
    (StartWebServer { LISTEN_PID := "", Pid := 4242 } Example.socketPath).mode
      = ListenerMode.UnixSocket ∧
    (StartWebServer { LISTEN_PID := "4242", Pid := 4242 } Example.socketPath).mode
      = ListenerMode.InheritedSocket :=
  ⟨by decide, by decide, by decide, by decide,
    (path_address_selects_unix_socket { LISTEN_PID := "", Pid := 4242 } Example.socketPath
      (by decide)).trans (by decide),
    (path_address_selects_unix_socket { LISTEN_PID := "4242", Pid := 4242 } Example.socketPath
      (by decide)).trans (by decide)⟩

/-- C7: when an ACME domain, a certificate file and a key file are all set,
`StartWebServer` never takes the static-TLS mode, and it takes the ACME mode
whenever neither `LISTEN_PID` equals the process id nor the listen address
starts with `/`. -/
theorem acme_precedes_static_tls (P : Process) (O : Options)
    (hdomain : O.CertDomain ≠ "") (_hcert : O.CertFile ≠ "") (_hkey : O.CertKeyFile ≠ "") :
    (StartWebServer P O).mode ≠ ListenerMode.StaticTLS ∧
      (P.LISTEN_PID ≠ Itoa P.Pid → HasPrefix O.ListenAddr "/" = false →
        (StartWebServer P O).mode = ListenerMode.AutoCertTLS) := by
  unfold StartWebServer
  constructor
  · by_cases hpid : P.LISTEN_PID = Itoa P.Pid
    · simp [hpid]
    · by_cases hpath : HasPrefix O.ListenAddr "/" = true
      · simp [hpid, hpath]
      · simp [hpid, hpath, hdomain]
  · intro hpid hpath
    simp [hpid, hpath, hdomain]

/-- Witness of C7: `127.0.0.1:8080` with `example.org`, a certificate and a key. -/
theorem acme_precedes_static_tls_witness :
    Example.acmeAndFiles.CertDomain ≠ "" ∧ Example.acmeAndFiles.CertFile ≠ "" ∧
    Example.acmeAndFiles.CertKeyFile ≠ "" ∧
    (StartWebServer { LISTEN_PID := "", Pid := 4242 } Example.acmeAndFiles).mode
      = ListenerMode.AutoCertTLS :=
  ⟨by decide, by decide, by decide,
    (acme_precedes_static_tls { LISTEN_PID := "", Pid := 4242 } Example.acmeAndFiles
      (by decide) (by decide) (by decide)).2 (by decide) (by decide)⟩

/-- C8: `tlsConfig` lists exactly six cipher suites, each with ECDHE key exchange
and AEAD record protection, three keyed by ECDSA and three by RSA, among them
AES-GCM and ChaCha20-Poly1305 suites, and its minimum version is TLS 1.2. -/
theorem tlsConfig_policy :
    tlsConfig.CipherSuites.length = 6 ∧
    (∀ id ∈ tlsConfig.CipherSuites, tls.forwardSecret id = true ∧ tls.aead id = true) ∧
    (tlsConfig.CipherSuites.filter (tls.keyedBy tls.Auth.ECDSA)).length = 3 ∧
    (tlsConfig.CipherSuites.filter (tls.keyedBy tls.Auth.RSA)).length = 3 ∧
    (∃ id ∈ tlsConfig.CipherSuites, ∃ s, tls.suite? id = some s ∧ s.cipher.isAESGCM = true) ∧
    (∃ id ∈ tlsConfig.CipherSuites, ∃ s, tls.suite? id = some s ∧
      s.cipher = tls.Cipher.CHACHA20_POLY1305) ∧
    tlsConfig.CipherSuites.Nodup ∧
    tls.VersionTLS12 ≤ tlsConfig.MinVersion := by
  refine ⟨rfl, by decide, by decide, by decide, ?_, ?_, by decide, by decide⟩
  · exact ⟨tls.TLS_ECDHE_ECDSA_WITH_AES_256_GCM_SHA384, by decide, _, rfl, rfl⟩
  · exact ⟨tls.TLS_ECDHE_ECDSA_WITH_CHACHA20_POLY1305, by decide, _, rfl, rfl⟩

/-- C9, as the code has it: the ALPN list `startAutoCertTLSServer` sets is `h2`,
`http/1.1`, `acme.ALPNProto` in this order, so the ACME TLS challenge token
comes after (at a larger index than) both `h2` and `http/1.1`. -/
theorem autocert_alpn_order (server : Server) (certDomain : String) :
    ∃ config, (startAutoCertTLSServer server certDomain).1.TLSConfig = some config ∧
      config.NextProtos = ["h2", "http/1.1", acme.ALPNProto] ∧
      config.NextProtos.indexOf "h2" < config.NextProtos.indexOf acme.ALPNProto ∧
      config.NextProtos.indexOf "http/1.1" < config.NextProtos.indexOf acme.ALPNProto := by
  refine ⟨_, rfl, rfl, ?_, ?_⟩
  · show List.indexOf "h2" ["h2", "http/1.1", acme.ALPNProto]
      < List.indexOf acme.ALPNProto ["h2", "http/1.1", acme.ALPNProto]
    decide
  · show List.indexOf "http/1.1" ["h2", "http/1.1", acme.ALPNProto]
      < List.indexOf acme.ALPNProto ["h2", "http/1.1", acme.ALPNProto]
    decide

/-- C9 fails on the code: for the ACME domain `example.org` the challenge token
is at index 2 of the ALPN list, `h2` at 0 and `http/1.1` at 1, so it is not
ahead of either. -/
theorem autocert_alpn_acme_first_fails :
    ∃ config, (startAutoCertTLSServer {} "example.org").1.TLSConfig = some config ∧
      config.NextProtos.indexOf acme.ALPNProto = 2 ∧
      config.NextProtos.indexOf "h2" = 0 ∧
      config.NextProtos.indexOf "http/1.1" = 1 ∧
      ¬ (config.NextProtos.indexOf acme.ALPNProto < config.NextProtos.indexOf "h2" ∧
        config.NextProtos.indexOf acme.ALPNProto < config.NextProtos.indexOf "http/1.1") := by
  refine ⟨_, rfl, ?_⟩
  show List.indexOf acme.ALPNProto ["h2", "http/1.1", acme.ALPNProto] = 2 ∧
    List.indexOf "h2" ["h2", "http/1.1", acme.ALPNProto] = 0 ∧
    List.indexOf "http/1.1" ["h2", "http/1.1", acme.ALPNProto] = 1 ∧
    ¬ (List.indexOf acme.ALPNProto ["h2", "http/1.1", acme.ALPNProto]
        < List.indexOf "h2" ["h2", "http/1.1", acme.ALPNProto] ∧
      List.indexOf acme.ALPNProto ["h2", "http/1.1", acme.ALPNProto]
        < List.indexOf "http/1.1" ["h2", "http/1.1", acme.ALPNProto])
  decide

/-- C11: when `LISTEN_PID` differs from the process id, the listen address does
not start with `/` and no ACME domain is set, `StartWebServer` takes the
static-TLS mode if and only if the certificate file and the key file are both
non-empty, and the plain-HTTP mode otherwise, also when only one of the two is
set; in both cases the address of the returned server is the configured listen
address. -/
theorem static_tls_iff_cert_and_key (P : Process) (O : Options)
    (hpid : P.LISTEN_PID ≠ Itoa P.Pid) (hpath : HasPrefix O.ListenAddr "/" = false)
    (hdomain : O.CertDomain = "") :
    ((StartWebServer P O).mode = ListenerMode.StaticTLS ↔
        (O.CertFile ≠ "" ∧ O.CertKeyFile ≠ "")) ∧
      ((StartWebServer P O).mode = ListenerMode.PlainHTTP ↔
        ¬ (O.CertFile ≠ "" ∧ O.CertKeyFile ≠ "")) ∧
      (StartWebServer P O).server.Addr = O.ListenAddr := by
  have hnodomain : ¬ O.CertDomain ≠ "" := fun h => h hdomain
  have hnopath : ¬ HasPrefix O.ListenAddr "/" = true := by simp [hpath]
  unfold StartWebServer
  dsimp only
  rw [if_neg hpid, if_neg hnopath, if_neg hnodomain]
  by_cases hfiles : O.CertFile ≠ "" ∧ O.CertKeyFile ≠ ""
  · rw [if_pos hfiles]
    exact ⟨⟨fun _ => hfiles, fun _ => rfl⟩,
      ⟨fun h => (by cases h), fun h => absurd hfiles h⟩, rfl⟩
  · rw [if_neg hfiles]
    exact ⟨⟨fun h => (by cases h), fun h => absurd h hfiles⟩,
      ⟨fun _ => hfiles, fun _ => rfl⟩, rfl⟩

/-- Witness of C11: on `127.0.0.1:8080` with a certificate but no key the mode is
plain HTTP, on `127.0.0.1:8443` with a certificate and a key it is static TLS;
each time the server address is the listen address. -/
theorem static_tls_iff_cert_and_key_witness :
    ("" : String) ≠ Itoa 4242 ∧ HasPrefix Example.certOnly.ListenAddr "/" = false ∧
    Example.certOnly.CertDomain = "" ∧ Example.certOnly.CertFile ≠ "" ∧
    Example.certOnly.CertKeyFile = "" ∧
    (StartWebServer { LISTEN_PID := "", Pid := 4242 } Example.certOnly).mode
      = ListenerMode.PlainHTTP ∧
    (StartWebServer { LISTEN_PID := "", Pid := 4242 } Example.certOnly).server.Addr
      = "127.0.0.1:8080" ∧
    HasPrefix Example.certAndKey.ListenAddr "/" = false ∧
    Example.certAndKey.CertDomain = "" ∧
    (StartWebServer { LISTEN_PID := "", Pid := 4242 } Example.certAndKey).mode
      = ListenerMode.StaticTLS ∧
    (StartWebServer { LISTEN_PID := "", Pid := 4242 } Example.certAndKey).server.Addr
      = "127.0.0.1:8443" :=
  have h := static_tls_iff_cert_and_key { LISTEN_PID := "", Pid := 4242 } Example.certOnly
    (by decide) (by decide) rfl
  have k := static_tls_iff_cert_and_key { LISTEN_PID := "", Pid := 4242 } Example.certAndKey
    (by decide) (by decide) rfl
  ⟨by decide, by decide, rfl, by decide, rfl, h.2.1.mpr (by decide), h.2.2,
    by decide, rfl, k.1.mpr (by decide), k.2.2⟩

end Miniflux
